import Mathlib

/-!
Shallow embedding of the url-health-sentinel repository.

The backing store is Redis, modelled as two key spaces: set-valued keys
(`stations`, `urls:<station>`) and scalar string keys (`status:<url>`).
A set key is "absent" exactly when its set is empty, matching Redis's
behaviour of removing empty sets.

`src/sentinel/app.py` is the monitoring loop (connect_redis, check_url,
check_urls); `src/dashboard/app.py` holds the CRUD operations
(add_url, delete_url, delete_station) modelled further below.

Network and backend effects are embedded as explicit outcome parameters:
a probe's outcome is a `ProbeOutcome` (a received response, or a raised
exception described by the `isinstance` facets the except-chain tests),
and each Redis write during the sweep either succeeds or raises a
`PyError`, as described by a `WriteBehavior` environment.
-/

namespace UrlSentinel

/-- The shared Redis store: set-valued keys and scalar string keys.
An empty set models an absent set key (Redis removes empty sets). -/
structure Redis where
  sets : String → Finset String
  strings : String → Option String

/-- Redis `SMEMBERS k`. -/
def Redis.smembers (r : Redis) (k : String) : Finset String := r.sets k

/-- Redis `SADD k v`. -/
def Redis.sadd (r : Redis) (k v : String) : Redis :=
  { r with sets := Function.update r.sets k (insert v (r.sets k)) }

/-- Redis `SREM k v`. -/
def Redis.srem (r : Redis) (k v : String) : Redis :=
  { r with sets := Function.update r.sets k ((r.sets k).erase v) }

/-- Redis `DEL k` for a set-valued key. -/
def Redis.delSet (r : Redis) (k : String) : Redis :=
  { r with sets := Function.update r.sets k ∅ }

/-- Redis `SET k v` for a scalar key. -/
def Redis.setStr (r : Redis) (k v : String) : Redis :=
  { r with strings := Function.update r.strings k (some v) }

/-- Redis `DEL k` for a scalar key. -/
def Redis.delStr (r : Redis) (k : String) : Redis :=
  { r with strings := Function.update r.strings k none }

/-- Redis `SCARD k`. -/
def Redis.scard (r : Redis) (k : String) : Nat := (r.sets k).card

/-- An exception raised by `requests.get`, described by the `isinstance`
facets that the `except` chain of `check_url` tests, in source order.
`requests` exception classes overlap (e.g. `ConnectTimeout` is both a
`Timeout` and a `ConnectionError`), so the facets are independent booleans. -/
structure PyException where
  is_timeout : Bool
  is_connection_error : Bool
  is_too_many_redirects : Bool
  is_request_exception : Bool
deriving DecidableEq

/-- The outcome of the single `requests.get` call inside `check_url`:
either a response was received (with its HTTP status code and the whole
elapsed milliseconds `int((time.time() - start_time) * 1000)`), or an
exception was raised. -/
inductive ProbeOutcome where
  | response (status_code : Nat) (elapsedMs : Nat)
  | raised (e : PyException)
deriving DecidableEq

/-- The browser-like header set built in `check_urls` (src/sentinel/app.py
lines 82-88). -/
def headers : List (String × String) :=
  [("User-Agent", "Mozilla/5.0 (Windows NT 10.0; Win64; x64) AppleWebKit/537.36 (KHTML, like Gecko) Chrome/120.0.0.0 Safari/537.36"),
   ("Accept", "text/html,application/xhtml+xml,application/xml;q=0.9,*/*;q=0.8"),
   ("Accept-Language", "en-US,en;q=0.5"),
   ("Accept-Encoding", "gzip, deflate"),
   ("Connection", "keep-alive")]

/-- Function `check_url(url, headers)` from src/sentinel/app.py lines 57-78.
The result of the network call is the `ProbeOutcome` argument; the
except-chain is the source's, in source order (first match wins). -/
def check_url (url : String) (hs : List (String × String)) (o : ProbeOutcome) : String :=
  match o with
  | .response status_code response_time =>
    if status_code = 200 then "UP (" ++ toString response_time ++ "ms)"
    else "DOWN (" ++ toString status_code ++ ")"
  | .raised e =>
    if e.is_timeout then "DOWN (Timeout)"
    else if e.is_connection_error then "DOWN (Connection Error)"
    else if e.is_too_many_redirects then "DOWN (Too Many Redirects)"
    else if e.is_request_exception then "DOWN (Error)"
    else "DOWN (Unknown Error)"

/-- C1: classification is ordered, first match wins: a timeout gives
`DOWN (Timeout)`; otherwise a connection failure gives
`DOWN (Connection Error)`; otherwise too many redirects gives
`DOWN (Too Many Redirects)`; otherwise any other request exception gives
`DOWN (Error)`; a response with status exactly 200 gives `UP (<n>ms)` with
`n` the elapsed whole milliseconds; any other status code `c` gives
`DOWN (<c>)`. -/
theorem check_url_classification
    (url : String) (hs : List (String × String)) (e : PyException) (code t : Nat) :
    (e.is_timeout = true → check_url url hs (.raised e) = "DOWN (Timeout)") ∧
    (e.is_timeout = false → e.is_connection_error = true →
      check_url url hs (.raised e) = "DOWN (Connection Error)") ∧
    (e.is_timeout = false → e.is_connection_error = false →
      e.is_too_many_redirects = true →
      check_url url hs (.raised e) = "DOWN (Too Many Redirects)") ∧
    (e.is_timeout = false → e.is_connection_error = false →
      e.is_too_many_redirects = false → e.is_request_exception = true →
      check_url url hs (.raised e) = "DOWN (Error)") ∧
    (check_url url hs (.response 200 t) = "UP (" ++ toString t ++ "ms)") ∧
    (code ≠ 200 → check_url url hs (.response code t) = "DOWN (" ++ toString code ++ ")") := by
  refine ⟨?_, ?_, ?_, ?_, ?_, ?_⟩ <;> intros <;> simp [check_url, *]

/-- Witness for C1: concrete classifications, including an exception that is
both a timeout and a connection error (the first matching handler wins). -/
theorem check_url_classification_witness :
    check_url "https://example.com" headers (.raised ⟨true, true, false, true⟩) = "DOWN (Timeout)" ∧
    check_url "https://example.com" headers (.raised ⟨false, true, false, true⟩) = "DOWN (Connection Error)" ∧
    check_url "https://example.com" headers (.raised ⟨false, false, true, true⟩) = "DOWN (Too Many Redirects)" ∧
    check_url "https://example.com" headers (.raised ⟨false, false, false, true⟩) = "DOWN (Error)" ∧
    check_url "https://example.com" headers (.response 200 12) = "UP (" ++ toString 12 ++ "ms)" ∧
    check_url "https://example.com" headers (.response 404 7) = "DOWN (" ++ toString 404 ++ ")" :=
  ⟨(check_url_classification "https://example.com" headers ⟨true, true, false, true⟩ 404 12).1 rfl,
   ((check_url_classification "https://example.com" headers ⟨false, true, false, true⟩ 404 12).2).1 rfl rfl,
   (((check_url_classification "https://example.com" headers ⟨false, false, true, true⟩ 404 12).2).2).1 rfl rfl rfl,
   ((((check_url_classification "https://example.com" headers ⟨false, false, false, true⟩ 404 12).2).2).2).1 rfl rfl rfl rfl,
   (((((check_url_classification "https://example.com" headers ⟨false, false, false, true⟩ 404 12).2).2).2).2).1,
   (((((check_url_classification "https://example.com" headers ⟨false, false, false, true⟩ 404 7).2).2).2).2).2 (by decide)⟩

/-- C2: `check_url` is a total function (modelled exceptions never escape),
and an exception matching none of the specific handlers is mapped to
`DOWN (Unknown Error)` by the catch-all handler. -/
theorem check_url_never_raises :
    (∀ (url : String) (hs : List (String × String)) (o : ProbeOutcome),
      ∃ s : String, check_url url hs o = s) ∧
    (∀ (url : String) (hs : List (String × String)) (e : PyException),
      e.is_timeout = false → e.is_connection_error = false →
      e.is_too_many_redirects = false → e.is_request_exception = false →
      check_url url hs (.raised e) = "DOWN (Unknown Error)") := by
  refine ⟨fun url hs o => ⟨check_url url hs o, rfl⟩, ?_⟩
  intros url hs e h1 h2 h3 h4
  simp [check_url, h1, h2, h3, h4]

/-- Witness for C2: a completely unclassified exception at a concrete URL. -/
theorem check_url_never_raises_witness :
    check_url "https://example.com" headers (.raised ⟨false, false, false, false⟩) = "DOWN (Unknown Error)" :=
  check_url_never_raises.2 "https://example.com" headers ⟨false, false, false, false⟩ rfl rfl rfl rfl

/-- An exception raised by a Redis operation, as classified by the outer
except-chain of `check_urls`: a `redis.exceptions.ConnectionError` or any
other `Exception`. -/
inductive PyError where
  | connError
  | generic
deriving DecidableEq

/-- Function `connect_redis` ensures the default station on a successful connect
(src/sentinel/app.py lines 42-45): `if not r.exists('stations'):
r.sadd('stations', 'General')`. -/
def ensure_default_station (r : Redis) : Redis :=
  if r.sets "stations" = ∅ then r.sadd "stations" "General" else r

/-- The `for attempt in range(max_retries)` loop of `connect_redis`:
`succ a` tells whether attempt `a` (connection plus ping plus bootstrap)
succeeds against backend state `r0`.  Exhausting the attempt list is
`sys.exit(1)`, modelled as `Except.error ()`. -/
def connect_over (r0 : Redis) (succ : Nat → Bool) : List Nat → Except Unit Redis
  | [] => Except.error ()
  | a :: rest =>
    if succ a then Except.ok (ensure_default_station r0) else connect_over r0 succ rest

/-- Function `connect_redis()` from src/sentinel/app.py lines 24-55: `max_retries = 5`
attempts (with a fixed `retry_delay = 2` sleep between them, not modelled);
exhaustion is `sys.exit(1)`. -/
def connect_redis (r0 : Redis) (succ : Nat → Bool) : Except Unit Redis :=
  connect_over r0 succ (List.range 5)

/-- The behaviour of the status writes for one target inside the sweep:
`first` describes `r.set(f"status:{url}", status)` (line 115) and
`recovery` describes the `r.set(f"status:{url}", "DOWN (Processing Error)")`
in the per-target except handler (line 128): `none` means the write
succeeds, `some e` means it raises `e`. -/
structure WriteBehavior where
  first : Option PyError
  recovery : Option PyError
deriving DecidableEq

/-- Processing of one URL inside the sweep loop (src/sentinel/app.py lines
112-128): probe, write the status; on any exception from the write, the
per-target handler writes `DOWN (Processing Error)`; if that write raises
too, the exception propagates out of the per-target loop.  Returns the
updated store and the propagated exception, if any. -/
def process_url (probes : String → ProbeOutcome) (wb : String → WriteBehavior)
    (r : Redis) (url : String) : Redis × Option PyError :=
  let status := check_url url headers (probes url)
  match (wb url).first with
  | none => (r.setStr ("status:" ++ url) status, none)
  | some _ =>
    match (wb url).recovery with
    | none => (r.setStr ("status:" ++ url) "DOWN (Processing Error)", none)
    | some e2 => (r, some e2)

/-- The `for i, url in enumerate(all_urls, 1)` loop over the working set:
stops early only when a per-target exception propagates. -/
def sweep_urls (probes : String → ProbeOutcome) (wb : String → WriteBehavior) :
    Redis → List String → Redis × Option PyError
  | r, [] => (r, none)
  | r, url :: rest =>
    match process_url probes wb r url with
    | (r', none) => sweep_urls probes wb r' rest
    | (r', some e) => (r', some e)

/-- Target enumeration (src/sentinel/app.py lines 98-104): the union over
all stations of that station's URL set. -/
def enumerate_targets (r : Redis) : Finset String :=
  (r.smembers "stations").biUnion (fun station => r.smembers ("urls:" ++ station))

/-- One iteration of the `while True` loop, driven by its environment:
a normal sweep (with the probe outcomes, write behaviours, and the
reconnection attempt outcomes should the sweep raise a connection error),
a backend read error while enumerating, or a `KeyboardInterrupt`. -/
inductive IterEvent where
  | sweep (probes : String → ProbeOutcome) (wb : String → WriteBehavior) (reconnect : Nat → Bool)
  | backendError (e : PyError) (reconnect : Nat → Bool)
  | interrupt

/-- The state of the monitoring process: still looping with a store, or
exited with a process exit code. -/
inductive RunState where
  | running (r : Redis)
  | exited (code : Nat)

/-- The outer except-chain of `check_urls` (lines 135-144): a
`redis.exceptions.ConnectionError` triggers `connect_redis` (whose
exhaustion is `sys.exit(1)`); any other `Exception` is logged, the loop
sleeps 5 seconds and continues with the same store. -/
def handle_sweep_error (r : Redis) (e : PyError) (reconnect : Nat → Bool) : RunState :=
  match e with
  | .connError =>
    match connect_redis r reconnect with
    | .ok r' => .running r'
    | .error _ => .exited 1
  | .generic => .running r

/-- What becomes of one iteration after its sweep: if no exception
propagated out of the per-target loop, the loop sleeps and continues;
otherwise the outer except-chain handles the exception. -/
def sweep_result : Redis × Option PyError → (Nat → Bool) → RunState
  | (r', none), _ => .running r'
  | (r', some e), reconnect => handle_sweep_error r' e reconnect

/-- One iteration of `check_urls` (src/sentinel/app.py lines 92-144).
The iteration order over the Python set `all_urls` is unspecified; it is
modelled as the sorted listing of the enumerated target set. -/
def check_urls_step (r : Redis) (ev : IterEvent) : RunState :=
  match ev with
  | .interrupt => .exited 0
  | .backendError e reconnect => handle_sweep_error r e reconnect
  | .sweep probes wb reconnect =>
    sweep_result (sweep_urls probes wb r ((enumerate_targets r).sort (· ≤ ·))) reconnect

/-- The `while True` loop of `check_urls`, run over a finite trace of
iteration events. -/
def run : Redis → List IterEvent → RunState
  | r, [] => .running r
  | r, ev :: rest =>
    match check_urls_step r ev with
    | .running r' => run r' rest
    | .exited c => .exited c

/-- The `__main__` block of src/sentinel/app.py lines 146-155:
`connect_redis()` (exhaustion exits with code 1) then `check_urls(r)`. -/
def main (r0 : Redis) (succ : Nat → Bool) (events : List IterEvent) : RunState :=
  match connect_redis r0 succ with
  | .ok r => run r events
  | .error _ => .exited 1

/-- The status string recorded for key `k`, when the process is still
running. -/
def status_after (st : RunState) (k : String) : Option String :=
  match st with
  | .running r => r.strings k
  | .exited _ => none

/-- Python's `url.rstrip('/')`: remove all trailing `/` characters. -/
def rstrip_slash (s : String) : String :=
  String.mk ((s.data.reverse.dropWhile (fun c => c = '/')).reverse)

/-- Python's `s.startswith(p)` on character lists: `begins_with p.data
s.data` holds exactly when `p` is an initial segment of `s`. -/
def begins_with : List Char → List Char → Bool
  | [], _ => true
  | _ :: _, [] => false
  | a :: ps, b :: cs => a = b && begins_with ps cs

/-- Python's `url.strip()`: remove leading and trailing whitespace. -/
def py_strip (s : String) : String :=
  String.mk (((s.data.dropWhile Char.isWhitespace).reverse.dropWhile Char.isWhitespace).reverse)

/-- The URL normalization of `add_url` (src/dashboard/app.py lines 163-166),
applied to the already-stripped form value: prepend `https://` when the URL
starts with neither `http://` nor `https://`, then remove trailing `/`. -/
def normalize_url (url : String) : String :=
  rstrip_slash (if begins_with "http://".data url.data || begins_with "https://".data url.data
                then url else "https://" ++ url)

/-- The normalization exactly as claim C9 words it, applied directly to the
submitted URL string: no leading/trailing-whitespace stripping. -/
def normalize_claimed (url : String) : String :=
  rstrip_slash (if begins_with "http://".data url.data || begins_with "https://".data url.data
                then url else "https://" ++ url)

/-- Route handler `add_url` (src/dashboard/app.py lines 152-182).  The form values are
strings; a missing form value is the empty string (both are falsy in
`if url and station`).  The source first applies `.strip()` to the URL. -/
def add_url (r : Redis) (urlForm station : String) : Redis :=
  let url0 := py_strip urlForm
  if url0 ≠ "" ∧ station ≠ "" then
    let url := normalize_url url0
    if url ∈ r.smembers ("urls:" ++ station) then r
    else (r.sadd ("urls:" ++ station) url).setStr ("status:" ++ url) "PENDING"
  else r

/-- Route handler `delete_url` (src/dashboard/app.py lines 184-213): remove the URL from
the given station's set, then delete the status key unless some station
still references the URL. -/
def delete_url (r : Redis) (url station : String) : Redis :=
  if url ≠ "" ∧ station ≠ "" then
    let r1 := r.srem ("urls:" ++ station) url
    if ∃ s ∈ r1.smembers "stations", url ∈ r1.smembers ("urls:" ++ s) then r1
    else r1.delStr ("status:" ++ url)
  else r

/-- Route handler `delete_station` (src/dashboard/app.py lines 127-150): for a named,
non-`General` station, remove it from the station set and delete its URL
set; nothing else is touched. -/
def delete_station (r : Redis) (name : String) : Redis :=
  if name ≠ "" ∧ name ≠ "General" then
    (r.srem "stations" name).delSet ("urls:" ++ name)
  else r

/-- String keys built by appending to a fixed tag are injective in the
appended part. -/
theorem string_append_left_cancel {a b c : String} (h : a ++ b = a ++ c) : b = c := by
  have hd : a.data ++ b.data = a.data ++ c.data := by
    simpa [String.data_append] using congrArg String.data h
  exact String.ext (List.append_cancel_left hd)

/-- A `urls:<station>` key never collides with the `stations` key. -/
theorem urls_key_ne_stations (s : String) : "urls:" ++ s ≠ "stations" := by
  intro h
  have h1 : ("urls:" ++ s).data.head? = some 'u' := by
    rw [String.data_append]; rfl
  rw [h] at h1
  exact absurd h1 (by decide)

/-- A store with no stations, URLs or statuses. -/
def empty_redis : Redis where
  sets := fun _ => ∅
  strings := fun _ => none

/-- A store in which the same URL belongs to two stations. -/
def r_dup : Redis where
  sets := fun k =>
    if k = "stations" then {"General", "Work"}
    else if k = "urls:General" then {"https://a.com"}
    else if k = "urls:Work" then {"https://a.com"}
    else ∅
  strings := fun _ => none

/-- C4: the working set enumerated for one sweep is the union over all
stations of that station's URL set, with set semantics: a URL is in the
working set exactly when some station's URL set holds it, and a URL in the
working set occurs exactly once in the sweep's iteration list, so it is
probed exactly once per sweep. -/
theorem enumerate_targets_dedup (r : Redis) (u : String) :
    (u ∈ enumerate_targets r ↔
      ∃ s ∈ r.smembers "stations", u ∈ r.smembers ("urls:" ++ s)) ∧
    (u ∈ enumerate_targets r → ((enumerate_targets r).sort (· ≤ ·)).count u = 1) := by
  constructor
  · simp [enumerate_targets, Finset.mem_biUnion]
  · intro hu
    exact List.count_eq_one_of_mem (Finset.sort_nodup _ _) ((Finset.mem_sort _).2 hu)

/-- Witness for C4: a URL present in two stations appears exactly once in
the sweep's iteration list. -/
theorem enumerate_targets_dedup_witness :
    ((enumerate_targets r_dup).sort (· ≤ ·)).count "https://a.com" = 1 :=
  (enumerate_targets_dedup r_dup "https://a.com").2 (by decide)

/-- A successful `connect_over` returns the bootstrapped store. -/
theorem connect_over_ok {r0 : Redis} {succ : Nat → Bool} {l : List Nat} {r' : Redis}
    (h : connect_over r0 succ l = .ok r') : r' = ensure_default_station r0 := by
  induction l with
  | nil => simp [connect_over] at h
  | cons a rest ih =>
    by_cases ha : succ a
    · simp [connect_over, ha] at h
      exact h.symm
    · simp [connect_over, ha] at h
      exact ih h

/-- C6: on every successful connect, if the station set is empty (the
`stations` key is absent) the default station `General` is added; if it is
non-empty the store is unchanged; either way at least one station exists
afterwards. -/
theorem connect_redis_default_station (r0 : Redis) (succ : Nat → Bool) (r' : Redis)
    (h : connect_redis r0 succ = .ok r') :
    (r0.sets "stations" = ∅ → r'.sets "stations" = {"General"}) ∧
    (r0.sets "stations" ≠ ∅ → r' = r0) ∧
    r'.sets "stations" ≠ ∅ := by
  have he : r' = ensure_default_station r0 := connect_over_ok h
  subst he
  refine ⟨?_, ?_, ?_⟩
  · intro h0
    simp [ensure_default_station, h0, Redis.sadd, Function.update_same]
  · intro h0
    simp [ensure_default_station, h0]
  · by_cases h0 : r0.sets "stations" = ∅
    · simp [ensure_default_station, h0, Redis.sadd, Function.update_same]
    · simp [ensure_default_station, h0]

/-- Witness for C6: connecting over an empty store creates the `General`
station; the station set is no longer empty. -/
theorem connect_redis_default_station_witness :
    (ensure_default_station empty_redis).sets "stations" = {"General"} ∧
    (ensure_default_station empty_redis).sets "stations" ≠ ∅ :=
  ⟨(connect_redis_default_station empty_redis (fun _ => true) _ rfl).1 rfl,
   (connect_redis_default_station empty_redis (fun _ => true) _ rfl).2.2⟩

/-- C8: a probe that receives an HTTP 200 response, followed by a
successful status write, records exactly `UP (<n>ms)` with `n` the whole
elapsed milliseconds, and `n ≥ 0`. -/
theorem probe_200_recorded (probes : String → ProbeOutcome) (wb : String → WriteBehavior)
    (r : Redis) (url : String) (t : Nat)
    (h1 : probes url = .response 200 t) (h2 : (wb url).first = none) :
    (process_url probes wb r url).1.strings ("status:" ++ url)
      = some ("UP (" ++ toString t ++ "ms)") ∧ 0 ≤ t := by
  constructor
  · simp [process_url, h1, h2, check_url, Redis.setStr, Function.update_same]
  · exact Nat.zero_le t

/-- Witness for C8: a 200 response taking 3ms is recorded as `UP (3ms)`. -/
theorem probe_200_recorded_witness :
    (process_url (fun _ => .response 200 3) (fun _ => ⟨none, none⟩) empty_redis
      "https://a.com").1.strings ("status:" ++ "https://a.com")
      = some ("UP (" ++ toString 3 ++ "ms)") :=
  (probe_200_recorded (fun _ => .response 200 3) (fun _ => ⟨none, none⟩) empty_redis
    "https://a.com" 3 rfl rfl).1

/-- A store with one station, one URL, and a previously recorded status. -/
def r_one : Redis where
  sets := fun k =>
    if k = "stations" then {"General"}
    else if k = "urls:General" then {"https://a.com"}
    else ∅
  strings := fun k => if k = "status:https://a.com" then some "UP (3ms)" else none

/-- Probe outcomes for the C3 scenario: every probe gets a 200 in 3ms. -/
def probes_ok : String → ProbeOutcome := fun _ => .response 200 3

/-- Write behaviour for the C3 scenario: the first status write raises a
generic exception, the handler's recovery write succeeds. -/
def wb_first_fails : String → WriteBehavior := fun _ => ⟨some .generic, none⟩

/-- Counterexample to C3 as stated: when the status write for a target
raises and the per-target handler runs, the target's stored status is not
left at its prior value — the handler overwrites it with
`DOWN (Processing Error)` (src/sentinel/app.py line 128).  Here the prior
value is `UP (3ms)`, the sweep completes (still running), and the stored
status afterwards is `DOWN (Processing Error)`. -/
theorem sweep_write_failure_counterexample :
    r_one.strings "status:https://a.com" = some "UP (3ms)" ∧
    status_after (check_urls_step r_one (.sweep probes_ok wb_first_fails (fun _ => true)))
      "status:https://a.com" = some "DOWN (Processing Error)" := by
  refine ⟨rfl, ?_⟩
  simp only [check_urls_step]
  rw [show (enumerate_targets r_one).sort (· ≤ ·) = ["https://a.com"] by
    rw [show enumerate_targets r_one = {"https://a.com"} by decide]
    exact Finset.sort_singleton _ _]
  rfl

/-- C3 amended: if the status write for one target raises and the handler's
recovery write succeeds, the sweep is not aborted — it continues with the
remaining targets — and that target's status key is overwritten with
`DOWN (Processing Error)` (not left at its prior value). -/
theorem sweep_continues_after_write_failure
    (probes : String → ProbeOutcome) (wb : String → WriteBehavior) (r : Redis)
    (url : String) (rest : List String) (e : PyError)
    (h1 : (wb url).first = some e) (h2 : (wb url).recovery = none) :
    sweep_urls probes wb r (url :: rest) =
      sweep_urls probes wb (r.setStr ("status:" ++ url) "DOWN (Processing Error)") rest := by
  simp [sweep_urls, process_url, h1, h2]

/-- Witness for the amended C3: concrete one-target sweep whose write
fails; the sweep continues (here: finishes) with the overwritten status. -/
theorem sweep_continues_after_write_failure_witness :
    sweep_urls probes_ok wb_first_fails r_one ["https://a.com"] =
      sweep_urls probes_ok wb_first_fails
        (r_one.setStr ("status:" ++ "https://a.com") "DOWN (Processing Error)") [] :=
  sweep_continues_after_write_failure probes_ok wb_first_fails r_one
    "https://a.com" [] .generic rfl rfl

/-- An exhausted attempt list yields `sys.exit(1)`. -/
theorem connect_over_exhaust {r0 : Redis} {succ : Nat → Bool} {l : List Nat}
    (h : ∀ a ∈ l, succ a = false) : connect_over r0 succ l = .error () := by
  induction l with
  | nil => rfl
  | cons a rest ih =>
    simp [connect_over, h a (List.mem_cons_self a rest)]
    exact ih fun b hb => h b (List.mem_cons_of_mem a hb)

/-- Conversely, `sys.exit(1)` is reached only when every attempt failed. -/
theorem connect_over_error_all_fail {r0 : Redis} {succ : Nat → Bool} {l : List Nat}
    (h : connect_over r0 succ l = .error ()) : ∀ a ∈ l, succ a = false := by
  induction l with
  | nil => simp
  | cons a rest ih =>
    intro b hb
    by_cases ha : succ a
    · simp [connect_over, ha] at h
    · rcases List.mem_cons.1 hb with rfl | hb'
      · simpa using ha
      · simp only [connect_over, ha, if_false, Bool.false_eq_true] at h
        exact ih (by simpa using h) b hb'

/-- The reconnection budget of an iteration event was exhausted: every one
of the 5 `connect_redis` attempts it would make fails. -/
def reconnect_exhausted : IterEvent → Prop
  | .sweep _ _ reconnect => ∀ n, n < 5 → reconnect n = false
  | .backendError _ reconnect => ∀ n, n < 5 → reconnect n = false
  | .interrupt => False

/-- An exit out of the outer error handler has code 1 and an exhausted
reconnection budget. -/
theorem handle_sweep_error_exit {r : Redis} {e : PyError} {reconnect : Nat → Bool} {c : Nat}
    (h : handle_sweep_error r e reconnect = .exited c) :
    c = 1 ∧ ∀ n, n < 5 → reconnect n = false := by
  cases e with
  | generic => simp [handle_sweep_error] at h
  | connError =>
    unfold handle_sweep_error at h
    cases hc : connect_redis r reconnect with
    | ok r' => rw [hc] at h; simp at h
    | error u =>
      rw [hc] at h
      cases u
      refine ⟨by injection h with h'; exact h'.symm, fun n hn => ?_⟩
      exact connect_over_error_all_fail hc n (List.mem_range.2 hn)

/-- A sweep whose outcome leads to an exit has code 1 and an exhausted
reconnection budget. -/
theorem sweep_result_exit {p : Redis × Option PyError} {reconnect : Nat → Bool} {c : Nat}
    (h : sweep_result p reconnect = .exited c) :
    c = 1 ∧ ∀ n, n < 5 → reconnect n = false := by
  rcases p with ⟨r', opt⟩
  cases opt with
  | none => simp [sweep_result] at h
  | some e => exact handle_sweep_error_exit h

/-- An exit out of one loop iteration is either a clean interrupt (code 0)
or a reconnection failure (code 1 with exhausted budget). -/
theorem check_urls_step_exit {r : Redis} {ev : IterEvent} {c : Nat}
    (h : check_urls_step r ev = .exited c) :
    c = 0 ∨ (c = 1 ∧ reconnect_exhausted ev) := by
  cases ev with
  | interrupt =>
    left
    simp only [check_urls_step] at h
    injection h with h'
    exact h'.symm
  | backendError e reconnect =>
    right
    simp only [check_urls_step] at h
    exact handle_sweep_error_exit h
  | sweep probes wb reconnect =>
    simp only [check_urls_step] at h
    right
    exact sweep_result_exit h

/-- The loop exits either cleanly or with code 1 after some iteration
exhausted its reconnection budget. -/
theorem run_exit {r : Redis} {events : List IterEvent} {c : Nat}
    (h : run r events = .exited c) :
    c = 0 ∨ (c = 1 ∧ ∃ ev ∈ events, reconnect_exhausted ev) := by
  induction events generalizing r with
  | nil => simp [run] at h
  | cons ev rest ih =>
    unfold run at h
    cases hstep : check_urls_step r ev with
    | running r' =>
      rw [hstep] at h
      rcases ih h with h0 | ⟨h1, ev', hev', hex⟩
      · exact Or.inl h0
      · exact Or.inr ⟨h1, ev', List.mem_cons_of_mem ev hev', hex⟩
    | exited c' =>
      rw [hstep] at h
      injection h with h'
      subst h'
      rcases check_urls_step_exit hstep with h0 | ⟨h1, hex⟩
      · exact Or.inl h0
      · exact Or.inr ⟨h1, ev, List.mem_cons_self ev rest, hex⟩

/-- Counterexample to C5 as stated: retry-budget exhaustion at startup is
not the only condition under which the process exits non-zero.  Here the
initial connect succeeds on attempt 0, but a sweep loses the backend
connection (both status writes raise `ConnectionError`), the reconnection
budget is exhausted, and the process exits with code 1. -/
theorem startup_only_exit_counterexample :
    ¬ (∀ (r0 : Redis) (succ : Nat → Bool) (events : List IterEvent) (c : Nat),
        main r0 succ events = RunState.exited c → c ≠ 0 → ∀ n, n < 5 → succ n = false) := by
  intro hclaim
  have hmain : main r_one (fun _ => true)
      [.sweep probes_ok (fun _ => ⟨some .connError, some .connError⟩) (fun _ => false)]
      = RunState.exited 1 := by
    show run r_one [.sweep probes_ok (fun _ => ⟨some .connError, some .connError⟩)
      (fun _ => false)] = RunState.exited 1
    simp only [run, check_urls_step]
    rw [show (enumerate_targets r_one).sort (· ≤ ·) = ["https://a.com"] by
      rw [show enumerate_targets r_one = {"https://a.com"} by decide]
      exact Finset.sort_singleton _ _]
    rfl
  have h := hclaim r_one (fun _ => true)
    [.sweep probes_ok (fun _ => ⟨some .connError, some .connError⟩) (fun _ => false)]
    1 hmain (by decide) 0 (by decide)
  simp at h

/-- C5 amended: connection establishment makes at most 5 attempts; if all
5 fail at startup the process exits with code 1; every exit of the
monitoring process has code 0 or 1; and a non-zero exit happens only
through connection-retry exhaustion — at startup, or in the reconnection
triggered when the backend connection is lost mid-run. -/
theorem main_exit_characterization (r0 : Redis) (succ : Nat → Bool)
    (events : List IterEvent) :
    ((∀ n, n < 5 → succ n = false) → main r0 succ events = RunState.exited 1) ∧
    (∀ c, main r0 succ events = RunState.exited c → c = 0 ∨ c = 1) ∧
    (∀ c, main r0 succ events = RunState.exited c → c ≠ 0 →
      (∀ n, n < 5 → succ n = false) ∨ ∃ ev ∈ events, reconnect_exhausted ev) := by
  refine ⟨?_, ?_, ?_⟩
  · intro hfail
    have hc : connect_redis r0 succ = .error () :=
      connect_over_exhaust fun a ha => hfail a (List.mem_range.1 ha)
    unfold main
    rw [hc]
  · intro c h
    unfold main at h
    cases hc : connect_redis r0 succ with
    | ok r =>
      rw [hc] at h
      rcases run_exit h with h0 | ⟨h1, _⟩
      · exact Or.inl h0
      · exact Or.inr h1
    | error u =>
      rw [hc] at h
      injection h with h'
      exact Or.inr h'.symm
  · intro c h hne
    unfold main at h
    cases hc : connect_redis r0 succ with
    | ok r =>
      rw [hc] at h
      rcases run_exit h with h0 | ⟨_, hex⟩
      · exact absurd h0 hne
      · exact Or.inr hex
    | error u =>
      cases u
      exact Or.inl fun n hn => connect_over_error_all_fail hc n (List.mem_range.2 hn)

/-- Witness for the amended C5: with every startup attempt failing, the
process exits with code 1. -/
theorem main_exit_characterization_witness :
    main empty_redis (fun _ => false) [] = RunState.exited 1 :=
  (main_exit_characterization empty_redis (fun _ => false) []).1 (fun _ _ => rfl)

/-- A `SET` never makes a present scalar key absent. -/
theorem setStr_keeps {r : Redis} (k' v k : String) (h : r.strings k ≠ none) :
    (r.setStr k' v).strings k ≠ none := by
  by_cases hk : k' = k
  · subst hk
    simp [Redis.setStr, Function.update_same]
  · simp only [Redis.setStr]
    rw [Function.update_noteq (Ne.symm hk)]
    exact h

/-- Processing one target never makes a present scalar key absent. -/
theorem process_url_keeps (probes : String → ProbeOutcome) (wb : String → WriteBehavior)
    (r : Redis) (url k : String) (h : r.strings k ≠ none) :
    (process_url probes wb r url).1.strings k ≠ none := by
  simp only [process_url]
  cases h1 : (wb url).first with
  | none => exact setStr_keeps _ _ _ h
  | some e =>
    cases h2 : (wb url).recovery with
    | none => exact setStr_keeps _ _ _ h
    | some e2 => exact h

/-- A whole sweep never makes a present scalar key absent. -/
theorem sweep_urls_keeps (probes : String → ProbeOutcome) (wb : String → WriteBehavior) :
    ∀ (l : List String) (r : Redis) (k : String), r.strings k ≠ none →
      (sweep_urls probes wb r l).1.strings k ≠ none := by
  intro l
  induction l with
  | nil => intro r k h; exact h
  | cons url rest ih =>
    intro r k h
    simp only [sweep_urls]
    split
    · rename_i r' heq
      apply ih
      have hp := process_url_keeps probes wb r url k h
      rw [heq] at hp
      exact hp
    · rename_i r' e heq
      have hp := process_url_keeps probes wb r url k h
      rw [heq] at hp
      exact hp

/-- Bootstrapping the default station leaves the scalar keys untouched. -/
theorem ensure_default_station_strings (r : Redis) :
    (ensure_default_station r).strings = r.strings := by
  unfold ensure_default_station
  split <;> rfl

/-- The outer error handler, when it keeps running, leaves the scalar keys
untouched (it only reconnects). -/
theorem handle_sweep_error_running {r : Redis} {e : PyError} {reconnect : Nat → Bool}
    {r' : Redis} (h : handle_sweep_error r e reconnect = .running r') :
    r'.strings = r.strings := by
  cases e with
  | generic =>
    simp only [handle_sweep_error] at h
    injection h with h'
    rw [← h']
  | connError =>
    simp only [handle_sweep_error] at h
    split at h
    · rename_i r'' heq
      injection h with h'
      subst h'
      rw [connect_over_ok heq]
      exact ensure_default_station_strings r
    · simp at h

/-- A sweep outcome that keeps running never makes a present scalar key
absent. -/
theorem sweep_result_keeps {p : Redis × Option PyError} {reconnect : Nat → Bool}
    {r' : Redis} (h : sweep_result p reconnect = .running r') :
    ∀ k, p.1.strings k ≠ none → r'.strings k ≠ none := by
  rcases p with ⟨r'', opt⟩
  cases opt with
  | none =>
    simp only [sweep_result] at h
    injection h with h'
    subst h'
    exact fun k hk => hk
  | some e =>
    intro k hk
    rw [handle_sweep_error_running h]
    exact hk

/-- One loop iteration that keeps running never makes a present scalar key
absent. -/
theorem check_urls_step_keeps {r : Redis} {ev : IterEvent} {r' : Redis}
    (h : check_urls_step r ev = .running r') :
    ∀ k, r.strings k ≠ none → r'.strings k ≠ none := by
  cases ev with
  | interrupt => simp [check_urls_step] at h
  | backendError e reconnect =>
    simp only [check_urls_step] at h
    intro k hk
    rw [handle_sweep_error_running h]
    exact hk
  | sweep probes wb reconnect =>
    simp only [check_urls_step] at h
    intro k hk
    exact sweep_result_keeps h k
      (sweep_urls_keeps probes wb ((enumerate_targets r).sort (· ≤ ·)) r k hk)

/-- The monitoring loop never makes a present scalar key absent. -/
theorem run_keeps {r : Redis} {events : List IterEvent} {rf : Redis}
    (h : run r events = .running rf) :
    ∀ k, r.strings k ≠ none → rf.strings k ≠ none := by
  induction events generalizing r with
  | nil =>
    simp only [run] at h
    injection h with h'
    subst h'
    exact fun k hk => hk
  | cons ev rest ih =>
    simp only [run] at h
    split at h
    · rename_i r' heq
      exact fun k hk => ih h k (check_urls_step_keeps heq k hk)
    · rename_i c heq
      exact absurd h (by simp)

/-- C7: the dashboard's delete-URL operation removes the status key exactly
when, after removing the URL from the given station, no station in the
station set still references that URL (otherwise the status key keeps its
prior value); and the monitoring core never deletes status keys — any
scalar key present when the loop starts is still present whenever the loop
is still running. -/
theorem delete_url_status_ownership :
    (∀ (r : Redis) (url station : String), url ≠ "" → station ≠ "" →
      ((¬ ∃ s ∈ (r.srem ("urls:" ++ station) url).smembers "stations",
          url ∈ (r.srem ("urls:" ++ station) url).smembers ("urls:" ++ s)) →
        (delete_url r url station).strings ("status:" ++ url) = none) ∧
      ((∃ s ∈ (r.srem ("urls:" ++ station) url).smembers "stations",
          url ∈ (r.srem ("urls:" ++ station) url).smembers ("urls:" ++ s)) →
        (delete_url r url station).strings ("status:" ++ url)
          = r.strings ("status:" ++ url))) ∧
    (∀ (r0 : Redis) (events : List IterEvent) (rf : Redis) (k : String),
      run r0 events = RunState.running rf → r0.strings k ≠ none → rf.strings k ≠ none) := by
  constructor
  · intro r url station hu hs
    constructor
    · intro hnone
      simp only [delete_url, if_pos (And.intro hu hs), if_neg hnone]
      simp [Redis.delStr, Redis.srem, Function.update_same]
    · intro hsome
      simp only [delete_url, if_pos (And.intro hu hs), if_pos hsome]
      rfl
  · intro r0 events rf k h hk
    exact run_keeps h k hk

/-- Witness for C7: deleting the only reference to a URL removes its status
key; an empty run of the loop trivially preserves a present status key. -/
theorem delete_url_status_ownership_witness :
    (delete_url r_one "https://a.com" "General").strings ("status:" ++ "https://a.com")
      = none ∧
    r_one.strings "status:https://a.com" ≠ none :=
  ⟨(delete_url_status_ownership.1 r_one "https://a.com" "General"
      (by decide) (by decide)).1 (by decide),
   delete_url_status_ownership.2 r_one [] r_one "status:https://a.com" rfl (by decide)⟩

/-- Counterexample to C9 as stated: the source applies `.strip()` to the
submitted URL before the normalization the claim describes, so for a
submission with surrounding whitespace the claim's normalized URL is not
what gets stored.  Submitting `" example.com"` (non-empty, not a member)
stores `"https://example.com"`, not the claim's normalization
`"https:// example.com"`, which is absent from the station's set. -/
theorem add_url_counterexample :
    " example.com" ≠ "" ∧
    normalize_claimed " example.com" = "https:// example.com" ∧
    normalize_claimed " example.com"
      ∉ empty_redis.smembers ("urls:" ++ "General") ∧
    normalize_claimed " example.com"
      ∉ (add_url empty_redis " example.com" "General").smembers ("urls:" ++ "General") ∧
    "https://example.com"
      ∈ (add_url empty_redis " example.com" "General").smembers ("urls:" ++ "General") := by
  refine ⟨by decide, by decide, by decide, by decide, by decide⟩

/-- C9 amended: the submitted URL is first stripped of surrounding
whitespace; if the stripped URL and the station are non-empty, the stored
URL is the stripped URL normalized exactly as the claim describes
(prepend `https://` unless it starts with `http://` or `https://`, strip
trailing `/`); the normalized URL is added to the station's set with its
status key set to `PENDING` only when it was not already a member, and a
duplicate add changes nothing. -/
theorem add_url_normalized (r : Redis) (urlForm station : String)
    (h0 : py_strip urlForm ≠ "") (h1 : station ≠ "") :
    normalize_url (py_strip urlForm) = normalize_claimed (py_strip urlForm) ∧
    (normalize_url (py_strip urlForm) ∉ r.smembers ("urls:" ++ station) →
      (add_url r urlForm station).smembers ("urls:" ++ station)
        = insert (normalize_url (py_strip urlForm)) (r.smembers ("urls:" ++ station)) ∧
      (add_url r urlForm station).strings ("status:" ++ normalize_url (py_strip urlForm))
        = some "PENDING") ∧
    (normalize_url (py_strip urlForm) ∈ r.smembers ("urls:" ++ station) →
      add_url r urlForm station = r) := by
  refine ⟨rfl, ?_, ?_⟩
  · intro hmem
    simp only [add_url, if_pos (And.intro h0 h1), if_neg hmem]
    constructor
    · simp [Redis.setStr, Redis.sadd, Redis.smembers, Function.update_same]
    · simp [Redis.setStr, Redis.sadd, Function.update_same]
  · intro hmem
    simp only [add_url, if_pos (And.intro h0 h1), if_pos hmem]

/-- Witness for the amended C9: adding `"b.com/"` to `General` stores the
normalized `"https://b.com"` with a `PENDING` status. -/
theorem add_url_normalized_witness :
    (add_url empty_redis "b.com/" "General").smembers ("urls:" ++ "General")
      = insert (normalize_url (py_strip "b.com/")) (empty_redis.smembers ("urls:" ++ "General")) ∧
    (add_url empty_redis "b.com/" "General").strings
      ("status:" ++ normalize_url (py_strip "b.com/")) = some "PENDING" :=
  (add_url_normalized empty_redis "b.com/" "General" (by decide) (by decide)).2.1 (by decide)

/-- A store with two stations, the second with one URL and its status. -/
def r_two : Redis where
  sets := fun k =>
    if k = "stations" then {"General", "Work"}
    else if k = "urls:Work" then {"https://b.com"}
    else ∅
  strings := fun k => if k = "status:https://b.com" then some "PENDING" else none

/-- C10: deleting a named non-`General` station removes it from the station
set and empties (deletes) its `urls:<name>` set, while every other
station's URL set and every scalar status key is unchanged — in particular
no status key is deleted, so a URL owned only by the deleted station keeps
an orphaned status entry. -/
theorem delete_station_frame (r : Redis) (name : String)
    (h0 : name ≠ "") (h1 : name ≠ "General") :
    (delete_station r name).smembers "stations" = (r.smembers "stations").erase name ∧
    (delete_station r name).smembers ("urls:" ++ name) = ∅ ∧
    (∀ s, s ≠ name → (delete_station r name).smembers ("urls:" ++ s)
      = r.smembers ("urls:" ++ s)) ∧
    (delete_station r name).strings = r.strings := by
  simp only [delete_station, if_pos (And.intro h0 h1)]
  refine ⟨?_, ?_, ?_, rfl⟩
  · simp only [Redis.smembers, Redis.delSet, Redis.srem]
    rw [Function.update_noteq (Ne.symm (urls_key_ne_stations name)), Function.update_same]
  · simp only [Redis.smembers, Redis.delSet, Redis.srem]
    rw [Function.update_same]
  · intro s hsne
    simp only [Redis.smembers, Redis.delSet, Redis.srem]
    rw [Function.update_noteq (fun h => hsne (string_append_left_cancel h)),
        Function.update_noteq (urls_key_ne_stations s)]

/-- Witness for C10: deleting station `Work` empties its URL set, keeps the
orphaned status key, and leaves the `General` URL set alone. -/
theorem delete_station_frame_witness :
    (delete_station r_two "Work").smembers ("urls:" ++ "Work") = ∅ ∧
    (delete_station r_two "Work").strings = r_two.strings ∧
    (delete_station r_two "Work").smembers ("urls:" ++ "General")
      = r_two.smembers ("urls:" ++ "General") :=
  ⟨(delete_station_frame r_two "Work" (by decide) (by decide)).2.1,
   (delete_station_frame r_two "Work" (by decide) (by decide)).2.2.2,
   (delete_station_frame r_two "Work" (by decide) (by decide)).2.2.1 "General" (by decide)⟩

end UrlSentinel
